import Mathlib

/-!
Verification of the SARndbox (Augmented Reality Sandbox) core against its
natural-language specification.  The definitions below are a shallow
embedding of the code in `Sandbox.cpp` and the `Sandbox` class header:
machine floating-point scalars are modelled as rationals (`ℚ`), null
pointers as `Option.none`, and the per-display-cycle work of
`Sandbox::display` as a pure state transformer that also records an event
trace.  Components whose implementation is not part of this repository
(the `WaterTable2` simulation step internals and the `FrameFilter` depth
stabilizer) are modelled from the specification text; each such definition
carries a doc comment saying so.
-/

namespace SARndbox

/-! ### Snapshot request channel (`Sandbox::GridRequest`, Sandbox header)

`GridRequest` holds at most one pending grid read-back request.  Buffers
are `GLfloat*` pointers in the source; we model a pointer as `Option Nat`
(`none` = null).  The callback function pointer is likewise `Option Nat`;
`Request::isActive` tests `callback != 0`.  The mutex serializes
`requestGrids` and `getRequest`; concurrency is modelled by considering
the possible serialization orders of the critical sections. -/

/-- Embedding of `Sandbox::GridRequest::Request`: destination buffer
pointers for bathymetry / water level / snow height, the completion
callback pointer and its user-data pointer. -/
structure Request where
  bathymetryBuffer : Option Nat
  waterLevelBuffer : Option Nat
  snowHeightBuffer : Option Nat
  callback : Option Nat
  callbackData : Nat
deriving DecidableEq, Repr

/-- `Request::Request()`: an inactive request (all pointers null). -/
def Request.inactive : Request :=
  ⟨none, none, none, none, 0⟩

/-- `Request::isActive()`: there is a pending request iff `callback != 0`. -/
def Request.isActive (r : Request) : Bool :=
  r.callback.isSome

/-- State protected by `GridRequest::mutex`. -/
structure GridRequestState where
  currentRequest : Request
deriving DecidableEq, Repr

/-- `GridRequest::requestGrids`: under the mutex, if `currentRequest.callback == 0`
store the new request and return `true`; otherwise return `false`. -/
def requestGrids (s : GridRequestState) (newBathymetryBuffer newWaterLevelBuffer
    newSnowHeightBuffer : Option Nat) (newCallback : Option Nat) (newCallbackData : Nat) :
    Bool × GridRequestState :=
  if s.currentRequest.callback = none then
    (true, ⟨⟨newBathymetryBuffer, newWaterLevelBuffer, newSnowHeightBuffer,
             newCallback, newCallbackData⟩⟩)
  else
    (false, s)

/-- `GridRequest::getRequest`: under the mutex, return the current request
and deactivate the slot by nulling only the callback pointer. -/
def getRequest (s : GridRequestState) : Request × GridRequestState :=
  (s.currentRequest, ⟨{ s.currentRequest with callback := none }⟩)

/-! ### Raw depth frame dispatch (`Sandbox::rawDepthFrameDispatcher`) -/

/-- Observable effect state of `Sandbox::rawDepthFrameDispatcher`: the
frames forwarded so far to the frame filter (depth stabilizer) and to the
hand extractor, most recent first.  Frames are identified by `Nat` ids. -/
structure DispatchState where
  frameFilterFrames : List Nat
  handExtractorFrames : List Nat
deriving DecidableEq, Repr

/-- `Sandbox::rawDepthFrameDispatcher`: forward the incoming raw depth
frame to the frame filter only when the filter exists and updates are not
paused, and to the hand extractor whenever it exists. -/
def rawDepthFrameDispatcher (frameFilterPresent pauseUpdates handExtractorPresent : Bool)
    (frame : Nat) (s : DispatchState) : DispatchState :=
  let s₁ :=
    if frameFilterPresent && !pauseUpdates then
      { s with frameFilterFrames := frame :: s.frameFilterFrames }
    else s
  if handExtractorPresent then
    { s₁ with handExtractorFrames := frame :: s₁.handExtractorFrames }
  else s₁

/-! ### Depth stabilizer hysteresis (spec-modelled) -/

/-- Modelled from the spec: the `FrameFilter` depth stabilizer
implementation is not part of this repository (only its declaration and
call sites are).  Per §4.1, once a cell's history has converged, the
candidate output value replaces the cell's previously published value only
if it differs from it by more than the hysteresis envelope half-width;
otherwise the previous value is retained. -/
def hysteresisPublish (hysteresis oldValue candidate : ℚ) : ℚ :=
  if |candidate - oldValue| > hysteresis / 2 then candidate else oldValue

/-- The value published for one cell after a sequence of converged
candidate values has been run through the hysteresis test, starting from a
previously published value. -/
def publishSequence (hysteresis oldValue : ℚ) (candidates : List ℚ) : ℚ :=
  candidates.foldl (hysteresisPublish hysteresis) oldValue

/-! ### The per-display-cycle water simulation (`Sandbox::display`)

`Sandbox::display` (Sandbox.cpp) guards the whole simulation update with
`waterTable != 0 && dataItem->waterTableTime != Vrui::getApplicationTime()`,
takes the pending grid read-back request, updates the bathymetry and
property grids, runs the self-throttled stepping loop

```
GLfloat totalTimeStep = GLfloat(Vrui::getFrameTime()*waterSpeed);
unsigned int numSteps = 0;
while(numSteps < waterMaxSteps && totalTimeStep > 1.0e-8f)
  { waterTable->setMaxStepSize(totalTimeStep);
    GLfloat timeStep = waterTable->runSimulationStep(false,...);
    totalTimeStep -= timeStep; ++numSteps; }
```

then services the read-back request and stamps `waterTableTime`.
GLfloat/double scalars are modelled as `ℚ`. -/

/-- The grids owned by the simulation engine (bathymetry, water depth and
snow height per cell). -/
structure SimState where
  bathymetry : List ℚ
  water : List ℚ
  snow : List ℚ
deriving DecidableEq, Repr

/-- The loop guard threshold `1.0e-8f` from `Sandbox::display`. -/
def stepEpsilon : ℚ := 1 / 100000000

/-- The per-cycle time budget `Vrui::getFrameTime()*waterSpeed` from
`Sandbox::display`: elapsed display time times the speed multiplier. -/
def cycleTimeBudget (frameTime waterSpeed : ℚ) : ℚ := frameTime * waterSpeed

/-- Modelled from the spec: `WaterTable2::runSimulationStep` is not part
of this repository.  Per §4.3 the executed step size is self-determined to
satisfy the stability constraint (`stableStep`), raised to the configured
minimum step size, and clamped to the maximum step size installed by
`setMaxStepSize` (the remaining budget). -/
def executedStepSize (minStepSize maxStepSize stableStep : ℚ) : ℚ :=
  let raised := if stableStep < minStepSize then minStepSize else stableStep
  if maxStepSize < raised then maxStepSize else raised

/-- Modelled from the spec: per §4.3/§4.5 every registered Contribution
(water-adding render function) is invoked once per simulation step. -/
def applyContributions (contribs : List (SimState → SimState)) (s : SimState) : SimState :=
  contribs.foldl (fun t c => c t) s

/-- The stepping loop of `Sandbox::display`, structurally recursive on the
number of steps still allowed (`waterMaxSteps - numSteps`).  Each
iteration requires `stepEpsilon < remaining budget`, applies the
registered Contributions, executes one step of size
`executedStepSize` (spec-modelled, see there) and subtracts it from the
remaining budget.  Returns the list of executed step sizes, the number of
Contribution invocations, and the final grid state. -/
def steppingLoop (minStepSize : ℚ) (stableStep : SimState → ℚ)
    (update : ℚ → SimState → SimState) (contribs : List (SimState → SimState)) :
    Nat → ℚ → SimState → List ℚ × Nat × SimState
  | 0, _, s => ([], 0, s)
  | k + 1, remaining, s =>
    if stepEpsilon < remaining then
      let s₁ := applyContributions contribs s
      let dt := executedStepSize minStepSize remaining (stableStep s₁)
      let s₂ := update dt s₁
      let r := steppingLoop minStepSize stableStep update contribs k (remaining - dt) s₂
      (dt :: r.1, contribs.length + r.2.1, r.2.2)
    else ([], 0, s)

/-- Embedding of `Sandbox::DataItem`: the per-OpenGL-context simulation
time stamp `waterTableTime`. -/
structure DataItem where
  waterTableTime : ℚ
deriving DecidableEq, Repr

/-- Observable events of one `Sandbox::display` invocation, in program
order. -/
inductive DisplayEvent where
  | takeRequest
  | updateBathymetry
  | readBathymetry
  | updatePropertyGrid
  | simulationStep (dt : ℚ)
  | readWaterLevel
  | readSnowHeight
  | callback
deriving DecidableEq, Repr

/-- Inputs of one `Sandbox::display` invocation: the Vrui clock values,
the simulation parameters read from the `Sandbox` object, and the
GPU-side operations whose implementations are outside this repository
(`WaterTable2::updateBathymetry`, `PropertyGridCreator::updatePropertyGrid`,
and the stable-step/state-update parts of `runSimulationStep`), kept
abstract as functions on the grid state. -/
structure DisplayInputs where
  appTime : ℚ
  frameTime : ℚ
  waterSpeed : ℚ
  waterMaxSteps : Nat
  minStepSize : ℚ
  waterTablePresent : Bool
  stableStep : SimState → ℚ
  update : ℚ → SimState → SimState
  contribs : List (SimState → SimState)
  updateBathymetryFn : SimState → SimState
  updatePropertyGridFn : SimState → SimState

/-- Result of one `Sandbox::display` invocation. -/
structure DisplayResult where
  dataItem : DataItem
  gridReq : GridRequestState
  sim : SimState
  trace : List DisplayEvent
  contribCount : Nat
deriving DecidableEq, Repr

/-- Embedding of the water-simulation part of `Sandbox::display`: if the
water table exists and this context's `waterTableTime` differs from the
application time, take the pending grid request, update bathymetry (and
read it back if requested), update the property grid, run the stepping
loop, read back water level and snow height if requested, complete the
request, and stamp `waterTableTime`; otherwise do nothing. -/
def display (inp : DisplayInputs) (d : DataItem) (g : GridRequestState) (s : SimState) :
    DisplayResult :=
  if inp.waterTablePresent = true ∧ d.waterTableTime ≠ inp.appTime then
    let rq := getRequest g
    let request := rq.1
    let s₁ := inp.updateBathymetryFn s
    let evB : List DisplayEvent :=
      if request.isActive = true ∧ request.bathymetryBuffer.isSome = true then
        [DisplayEvent.readBathymetry]
      else []
    let s₂ := inp.updatePropertyGridFn s₁
    let L := steppingLoop inp.minStepSize inp.stableStep inp.update inp.contribs
               inp.waterMaxSteps (cycleTimeBudget inp.frameTime inp.waterSpeed) s₂
    let evW : List DisplayEvent :=
      if request.isActive = true ∧ request.waterLevelBuffer.isSome = true then
        [DisplayEvent.readWaterLevel]
      else []
    let evS : List DisplayEvent :=
      if request.isActive = true ∧ request.snowHeightBuffer.isSome = true then
        [DisplayEvent.readSnowHeight]
      else []
    let evC : List DisplayEvent :=
      if request.isActive = true then [DisplayEvent.callback] else []
    { dataItem := ⟨inp.appTime⟩
      gridReq := rq.2
      sim := L.2.2
      trace := DisplayEvent.takeRequest :: DisplayEvent.updateBathymetry ::
        (evB ++ DisplayEvent.updatePropertyGrid ::
          (L.1.map DisplayEvent.simulationStep ++ (evW ++ (evS ++ evC))))
      contribCount := L.2.1 }
  else
    { dataItem := d, gridReq := g, sim := s, trace := [], contribCount := 0 }

/-- `true` for a `simulationStep` trace event. -/
def isStepEvent : DisplayEvent → Bool
  | DisplayEvent.simulationStep _ => true
  | _ => false

/-- Checks that after every `takeRequest` event no `simulationStep` event
follows, i.e. that the request is taken only after the stepping loop has
completed. -/
def takeAfterAllSteps : List DisplayEvent → Bool
  | [] => true
  | DisplayEvent.takeRequest :: rest => !(rest.any isStepEvent) && takeAfterAllSteps rest
  | _ :: rest => takeAfterAllSteps rest

/-- Checks that after every `callback` event no `simulationStep` event
follows, i.e. that the completion callback runs only after the stepping
loop has completed. -/
def callbackAfterAllSteps : List DisplayEvent → Bool
  | [] => true
  | DisplayEvent.callback :: rest => !(rest.any isStepEvent) && callbackAfterAllSteps rest
  | _ :: rest => callbackAfterAllSteps rest

/-- The snapshot-servicing protocol exactly as claim C1 states it for a
cycle in which the simulation is updated: the request is taken exactly
once and only **after** the stepping loop completes, and the completion
callback is invoked exactly once, after the loop. -/
def claimC1Trace (tr : List DisplayEvent) : Bool :=
  (tr.count DisplayEvent.takeRequest == 1) && takeAfterAllSteps tr &&
  (tr.count DisplayEvent.callback == 1) && callbackAfterAllSteps tr

/-- Concrete display-cycle inputs used to evaluate the snapshot protocol:
speed multiplier 1, frame time 1 (so one simulation step runs), identity
grid operations. -/
def cexDisplayInputs : DisplayInputs where
  appTime := 1
  frameTime := 1
  waterSpeed := 1
  waterMaxSteps := 2
  minStepSize := 0
  waterTablePresent := true
  stableStep := fun _ => 1
  update := fun _ s => s
  contribs := []
  updateBathymetryFn := fun s => s
  updatePropertyGridFn := fun s => s

/-- A concrete pending grid request asking for all three grids. -/
def cexGridRequest : GridRequestState := ⟨⟨some 0, some 1, some 2, some 0, 0⟩⟩

/-! ### The control pipe (`Sandbox::frame`, Sandbox.cpp)

`Sandbox::frame` reads a chunk from the control pipe, splits it into
whitespace-tokenized lines with the helper `tokenizeLine`, and dispatches
each line through a case-insensitive command chain.  Malformed lines print
a message to `std::cerr` (modelled as an error count) and are skipped. -/

/-- `isspace` of the C locale: space, tab, newline, carriage return,
vertical tab and form feed. -/
def isSpaceChar (c : Char) : Bool :=
  c == ' ' || c == '\t' || c == '\n' || c == '\r' || c == '\x0B' || c == '\x0C'

/-- The initial loop of `tokenizeLine`: skip whitespace but not
end-of-line. -/
def skipSpacesNotNL : List Char → List Char
  | [] => []
  | c :: rest => if isSpaceChar c && c != '\n' then skipSpacesNotNL rest else c :: rest

/-- The token scan of `tokenizeLine`: take characters up to the next
whitespace or end of buffer, returning the token and the rest. -/
def takeTokenAux : List Char → List Char × List Char
  | [] => ([], [])
  | c :: rest =>
    if !isSpaceChar c then
      let r := takeTokenAux rest
      (c :: r.1, r.2)
    else ([], c :: rest)

/-- The token loop of `tokenizeLine` (fuel-indexed so that it is
structurally recursive and kernel-computable; `tokenizeRest` instantiates
the fuel with the buffer length, which the lemmas below show is always
enough): extract whitespace-separated tokens until a newline or the end of
the buffer, then skip the end-of-line character. -/
def tokenizeRestFuel : Nat → List Char → List String × List Char
  | 0, l => ([], l)
  | _ + 1, [] => ([], [])
  | fuel + 1, c :: rest =>
    if c = '\n' then ([], rest)
    else
      let t := takeTokenAux (c :: rest)
      let r := tokenizeRestFuel fuel (skipSpacesNotNL t.2)
      (String.mk t.1 :: r.1, r.2)

/-- The token loop of `tokenizeLine` with sufficient fuel. -/
def tokenizeRest (l : List Char) : List String × List Char :=
  tokenizeRestFuel l.length l

/-- `tokenizeLine` (Sandbox.cpp helper): skip initial whitespace (but not
end-of-line), extract the whitespace-separated tokens of the current line,
skip the end-of-line, and return the tokens together with the start of the
next line. -/
def tokenizeLine (buffer : List Char) : List String × List Char :=
  tokenizeRest (skipSpacesNotNL buffer)

/-- ASCII lower-casing as used by `strcasecmp`. -/
def lowerChar (c : Char) : Char :=
  if 'A' ≤ c ∧ c ≤ 'Z' then Char.ofNat (c.toNat + 32) else c

/-- `isToken` (Sandbox.cpp helper): case-insensitive token comparison via
`strcasecmp`. -/
def isToken (token : String) (pattern : String) : Bool :=
  token.data.map lowerChar == pattern.data.map lowerChar

/-- Decimal digit test. -/
def isDecDigit (c : Char) : Bool := '0' ≤ c && c ≤ '9'

/-- Value of a decimal digit character. -/
def digitVal (c : Char) : Nat := c.toNat - '0'.toNat

/-- Parse a maximal run of decimal digits, returning its value, the number
of digits and the unconsumed rest. -/
def parseNatDigits : List Char → Nat × Nat × List Char
  | [] => (0, 0, [])
  | c :: rest =>
    if isDecDigit c then
      let r := parseNatDigits rest
      (digitVal c * 10 ^ r.2.1 + r.1, r.2.1 + 1, r.2.2)
    else (0, 0, c :: rest)

/-- Skip all leading whitespace (as `atof`/`atoi` do). -/
def skipLeadingSpaces : List Char → List Char
  | [] => []
  | c :: rest => if isSpaceChar c then skipLeadingSpaces rest else c :: rest

/-- Parse an optional sign, returning whether the number is negative and
the unconsumed rest. -/
def parseSign : List Char → Bool × List Char
  | '-' :: rest => (true, rest)
  | '+' :: rest => (false, rest)
  | l => (false, l)

/-- Modelled from the spec: the control commands parse numeric arguments
"as ordinary decimal text" via the C library's `atof`, which is not part
of this repository.  The discrete parse result: sign, integer part,
fraction part and number of fraction digits.  Parsing stops at the first
unexpected character; a string with no digits yields zero.  (Exponent
notation is not modelled; no documented control command uses it.) -/
def atofParts (s : String) : Bool × Nat × Nat × Nat :=
  let l := skipLeadingSpaces s.data
  let sg := parseSign l
  let ip := parseNatDigits sg.2
  match ip.2.2 with
  | '.' :: rest =>
    let f := parseNatDigits rest
    (sg.1, ip.1, f.1, f.2.1)
  | _ => (sg.1, ip.1, 0, 0)

/-- Modelled from the spec: the C library's `atof` on ordinary decimal
text (see `atofParts`). -/
def atof (s : String) : ℚ :=
  let p := atofParts s
  let mag : ℚ := (p.2.1 : ℚ) + (p.2.2.1 : ℚ) / ((10 : ℚ) ^ p.2.2.2)
  if p.1 then -mag else mag

/-- Modelled from the spec: the C library's `atoi` on ordinary decimal
text. -/
def atoi (s : String) : Int :=
  let l := skipLeadingSpaces s.data
  let sg := parseSign l
  let ip := parseNatDigits sg.2
  if sg.1 then -(ip.1 : Int) else (ip.1 : Int)

/-- The C conversion from `int` to `unsigned int` (the assignment
`waterMaxSteps = atoi(...)`): reduction modulo `2^32`. -/
def uintOfInt (i : Int) : Nat := (i % ((2 : Int) ^ 32)).toNat

/-- `GLMotif::TextFieldSlider::setValue` clamps the set value to the
slider's value range (the code comments in `Sandbox::frame` rely on
exactly this: "Set the new value in the slider first to clamp it to the
valid range"). -/
def clampQ (lo hi x : ℚ) : ℚ :=
  if x < lo then lo else if hi < x then hi else x

/-- `WaterTable2`'s two numerical modes. -/
inductive WaterMode where
  | Traditional
  | Engineering
deriving DecidableEq, Repr

/-- The simulation parameters reachable from control-pipe commands:
`Sandbox::waterSpeed`, `Sandbox::waterMaxSteps`, `Sandbox::rainStrength`,
and the values handed to `WaterTable2` (snow line, snow melt, attenuation,
water deposit, mode) and `PropertyGridCreator` (roughness, absorption). -/
structure SimParams where
  waterSpeed : ℚ
  waterMaxSteps : Nat
  rainStrength : ℚ
  snowLine : ℚ
  snowMelt : ℚ
  attenuation : ℚ
  waterDeposit : ℚ
  roughness : ℚ
  absorption : ℚ
  mode : WaterMode
deriving DecidableEq, Repr

/-- Configuration of the command receivers: whether `waterTable`,
`propertyGridCreator` and the GUI sliders are non-null, and the runtime
value ranges of the `snowLine` slider (the elevation range) and the
`snowMelt` slider. -/
structure PipeConfig where
  waterTablePresent : Bool
  propertyGridPresent : Bool
  slidersPresent : Bool
  snowLineMin : ℚ
  snowLineMax : ℚ
  snowMeltMax : ℚ

/-- The value range of the `waterSpeed` slider,
`waterSpeedSlider->setValueRange(0.001,10.0,0.05)`. -/
def waterSpeedRange : ℚ × ℚ := (1 / 1000, 10)

/-- One branch of the command dispatch chain in `Sandbox::frame`: the
command name tested by `isToken`, the acceptable argument counts, and the
effect of a line that passes the argument-count check (which may itself
report an argument-*value* error, as `waterMode` or `useContourLines`
do). -/
structure CommandSpec where
  name : String
  argOk : Nat → Bool
  act : PipeConfig → List String → SimParams → SimParams × Nat

/-- The `if/else if` command chain of `Sandbox::frame`, represented as a
first-match table in source order.  Commands that only touch per-window
rendering settings (from `waterColor` on) do not affect the simulation
parameters; their argument-count checks and error messages are kept. -/
def commandTable : List CommandSpec := [
  ⟨"snowLine", fun n => n == 1, fun cfg args p =>
    let v := atof (args.headD "")
    let v := if cfg.slidersPresent then clampQ cfg.snowLineMin cfg.snowLineMax v else v
    (if cfg.waterTablePresent then { p with snowLine := v } else p, 0)⟩,
  ⟨"snowMelt", fun n => n == 1, fun cfg args p =>
    let v := atof (args.headD "")
    let v := if cfg.slidersPresent then clampQ 0 cfg.snowMeltMax v else v
    (if cfg.waterTablePresent then { p with snowMelt := v } else p, 0)⟩,
  ⟨"waterSpeed", fun n => n == 1, fun _ args p =>
    ({ p with waterSpeed := atof (args.headD "") }, 0)⟩,
  ⟨"waterMaxSteps", fun n => n == 1, fun _ args p =>
    ({ p with waterMaxSteps := uintOfInt (atoi (args.headD "")) }, 0)⟩,
  ⟨"waterMode", fun n => n == 1, fun cfg args p =>
    if isToken (args.headD "") "traditional" then
      (if cfg.waterTablePresent then { p with mode := WaterMode.Traditional } else p, 0)
    else if isToken (args.headD "") "engineering" then
      (if cfg.waterTablePresent then { p with mode := WaterMode.Engineering } else p, 0)
    else (p, 1)⟩,
  ⟨"waterAttenuation", fun n => n == 1, fun cfg args p =>
    (if cfg.waterTablePresent then { p with attenuation := 1 - atof (args.headD "") }
     else p, 0)⟩,
  ⟨"waterRoughness", fun n => n == 1, fun cfg args p =>
    (if cfg.propertyGridPresent then { p with roughness := atof (args.headD "") }
     else p, 0)⟩,
  ⟨"rainStrength", fun n => n == 1, fun _ args p =>
    ({ p with rainStrength := atof (args.headD "") }, 0)⟩,
  ⟨"waterAbsorption", fun n => n == 1, fun cfg args p =>
    (if cfg.propertyGridPresent then { p with absorption := atof (args.headD "") }
     else p, 0)⟩,
  ⟨"evaporationRate", fun n => n == 1, fun cfg args p =>
    (if cfg.waterTablePresent then { p with waterDeposit := atof (args.headD "") }
     else p, 0)⟩,
  ⟨"waterColor", fun n => n == 3, fun _ _ p => (p, 0)⟩,
  ⟨"waterReflectionColor", fun n => n == 3, fun _ _ p => (p, 0)⟩,
  ⟨"colorCycle", fun n => n != 0, fun _ _ p => (p, 0)⟩,
  ⟨"colorMap", fun n => n == 1, fun _ _ p => (p, 0)⟩,
  ⟨"heightMapPlane", fun n => n == 4, fun _ _ p => (p, 0)⟩,
  ⟨"useContourLines", fun n => n == 1, fun _ args p =>
    if isToken (args.headD "") "on" || isToken (args.headD "") "off" then (p, 0)
    else (p, 1)⟩,
  ⟨"contourLineSpacing", fun n => n == 1, fun _ args p =>
    if 0 < atof (args.headD "") then (p, 0) else (p, 1)⟩,
  ⟨"dippingBed", fun n => n == 1 || n == 4, fun _ args p =>
    if args.length = 1 then
      if isToken (args.headD "") "off" then (p, 0) else (p, 1)
    else (p, 0)⟩,
  ⟨"foldedDippingBed", fun n => n == 5, fun _ _ p => (p, 0)⟩,
  ⟨"dippingBedThickness", fun n => n == 1, fun _ _ p => (p, 0)⟩,
  ⟨"loadWarpTexture", fun n => n == 1, fun _ _ p => (p, 0)⟩,
  ⟨"useWarpTexture", fun n => n == 1, fun _ args p =>
    if isToken (args.headD "") "on" || isToken (args.headD "") "off" then (p, 0)
    else (p, 1)⟩,
  ⟨"warpIntensity", fun n => n == 1, fun _ _ p => (p, 0)⟩,
  ⟨"textureScale", fun n => n == 1, fun _ _ p => (p, 0)⟩,
  ⟨"gradientThreshold", fun n => n == 1, fun _ _ p => (p, 0)⟩,
  ⟨"warpMode", fun n => n == 1, fun _ _ p => (p, 0)⟩,
  ⟨"textureBlendMode", fun n => n == 1, fun _ _ p => (p, 0)⟩,
  ⟨"textureOpacity", fun n => n == 1, fun _ _ p => (p, 0)⟩]

/-- The command dispatch of `Sandbox::frame` for one tokenized
control-pipe line: the first matching branch of the chain handles the
line; a wrong argument count or an unrecognized command name prints one
error message and changes nothing.  Returns the updated parameters and
the number of error messages printed. -/
def dispatchCommand (cfg : PipeConfig) (tokens : List String) (p : SimParams) :
    SimParams × Nat :=
  match tokens with
  | [] => (p, 0)
  | cmd :: args =>
    match commandTable.find? (fun cs => isToken cmd cs.name) with
    | some cs => if cs.argOk args.length then cs.act cfg args p else (p, 1)
    | none => (p, 1)

/-- A tokenized line with a malformed argument count for a recognized
command, or an unrecognized command name. -/
def lineError (tokens : List String) : Bool :=
  match tokens with
  | [] => false
  | cmd :: args =>
    match commandTable.find? (fun cs => isToken cmd cs.name) with
    | some cs => !cs.argOk args.length
    | none => true

/-- The line-extraction loop of `Sandbox::frame`
(`while(*cPtr!='\0') { tokens = tokenizeLine(cPtr); if(tokens.empty())
continue; ...dispatch... }`), fuel-indexed for structural recursion
(`processBuffer` instantiates the fuel with the buffer length, which is
always enough).  Returns the final parameters and the total number of
error messages printed. -/
def processBufferFuel (cfg : PipeConfig) : Nat → List Char → SimParams → SimParams × Nat
  | 0, _, p => (p, 0)
  | _ + 1, [], p => (p, 0)
  | fuel + 1, c :: bs, p =>
    let tr := tokenizeLine (c :: bs)
    let r1 := if tr.1.isEmpty then ((p, 0) : SimParams × Nat) else dispatchCommand cfg tr.1 p
    let r2 := processBufferFuel cfg fuel tr.2 r1.1
    (r2.1, r1.2 + r2.2)

/-- Processing of one control-pipe buffer by `Sandbox::frame`. -/
def processBuffer (cfg : PipeConfig) (buf : List Char) (p : SimParams) : SimParams × Nat :=
  processBufferFuel cfg buf.length buf p

/-- A concrete simulation parameter set used to evaluate the control-pipe
commands. -/
def cexSimParams : SimParams :=
  ⟨1, 30, 1/4, 0, 0, 0, 0, 0, 0, WaterMode.Traditional⟩

/-- A concrete command-receiver configuration: water table, property grid
creator and sliders all present; snow line range `[0, 100]`, snow melt
range `[0, 1]`. -/
def cexPipeConfig : PipeConfig := ⟨true, true, true, 0, 100, 1⟩

/-! ## Theorems -/

/-- **C3.** At most one snapshot request is live at any time: starting
from a state with no live request, a `requestGrids` call stores the
request and returns success; a `requestGrids` call against any state with
a live request fails and leaves the state unchanged; and of two submit
calls serialized (in either order, as the mutex forces) before any
`getRequest`, exactly the first succeeds. -/
theorem requestGrids_single_outstanding
    (s : GridRequestState) (b1 w1 n1 b2 w2 n2 : Option Nat) (cb1 cb2 d1 d2 : Nat)
    (hfree : s.currentRequest.isActive = false) :
    ((requestGrids s b1 w1 n1 (some cb1) d1).1 = true
      ∧ (requestGrids s b1 w1 n1 (some cb1) d1).2.currentRequest
          = ⟨b1, w1, n1, some cb1, d1⟩)
    ∧ (∀ t : GridRequestState, t.currentRequest.isActive = true →
        requestGrids t b2 w2 n2 (some cb2) d2 = (false, t))
    ∧ (requestGrids (requestGrids s b1 w1 n1 (some cb1) d1).2
        b2 w2 n2 (some cb2) d2).1 = false := by
  have hnone : s.currentRequest.callback = none := by
    simpa [Request.isActive, Option.isSome_iff_exists] using hfree
  refine ⟨⟨?_, ?_⟩, ?_, ?_⟩
  · simp [requestGrids, hnone]
  · simp [requestGrids, hnone]
  · intro t ht
    have : ¬ t.currentRequest.callback = none := by
      simp only [Request.isActive, Option.isSome_iff_exists] at ht
      rcases ht with ⟨x, hx⟩
      simp [hx]
    simp [requestGrids, this]
  · simp [requestGrids, hnone]

/-- Witness for C3 at a concrete inactive initial state. -/
theorem requestGrids_single_outstanding_witness :
    (GridRequestState.mk Request.inactive).currentRequest.isActive = false
    ∧ (((requestGrids ⟨Request.inactive⟩ (some 1) none none (some 5) 0).1 = true
        ∧ (requestGrids ⟨Request.inactive⟩ (some 1) none none (some 5) 0).2.currentRequest
            = ⟨some 1, none, none, some 5, 0⟩)
      ∧ (∀ t : GridRequestState, t.currentRequest.isActive = true →
          requestGrids t none (some 2) none (some 6) 1 = (false, t))
      ∧ (requestGrids (requestGrids ⟨Request.inactive⟩ (some 1) none none (some 5) 0).2
          none (some 2) none (some 6) 1).1 = false) :=
  ⟨by decide,
   requestGrids_single_outstanding ⟨Request.inactive⟩ (some 1) none none none (some 2) none
     5 6 0 1 (by decide)⟩

/-- **C10.** While updates are paused, an incoming raw depth frame is not
forwarded to the frame filter (depth stabilizer), but is still forwarded
to the hand extractor, so hand detection keeps receiving every raw
frame. -/
theorem rawDepthFrameDispatcher_pause (frameFilterPresent pauseUpdates handExtractorPresent : Bool)
    (frame : Nat) (s : DispatchState)
    (hpause : pauseUpdates = true) (hhand : handExtractorPresent = true) :
    (rawDepthFrameDispatcher frameFilterPresent pauseUpdates handExtractorPresent
        frame s).frameFilterFrames = s.frameFilterFrames
    ∧ (rawDepthFrameDispatcher frameFilterPresent pauseUpdates handExtractorPresent
        frame s).handExtractorFrames = frame :: s.handExtractorFrames := by
  subst hpause hhand
  cases frameFilterPresent <;> simp [rawDepthFrameDispatcher]

/-- Witness for C10 on a concrete dispatch state. -/
theorem rawDepthFrameDispatcher_pause_witness :
    (rawDepthFrameDispatcher true true true 7 ⟨[1], [2]⟩).frameFilterFrames = [1]
    ∧ (rawDepthFrameDispatcher true true true 7 ⟨[1], [2]⟩).handExtractorFrames = [7, 2] :=
  rawDepthFrameDispatcher_pause true true true 7 ⟨[1], [2]⟩ rfl rfl

/-- **C8.** Hysteresis stability: if every converged candidate value in a
sequence stays within half the hysteresis envelope width of the cell's
previously published value, the published value does not change. -/
theorem publishSequence_stable (hysteresis oldValue : ℚ) (candidates : List ℚ)
    (h : ∀ c ∈ candidates, |c - oldValue| ≤ hysteresis / 2) :
    publishSequence hysteresis oldValue candidates = oldValue := by
  induction candidates with
  | nil => rfl
  | cons c cs ih =>
    have hc : |c - oldValue| ≤ hysteresis / 2 := h c (List.mem_cons_self c cs)
    have hstep : hysteresisPublish hysteresis oldValue c = oldValue := by
      simp [hysteresisPublish, not_lt.mpr hc]
    calc publishSequence hysteresis oldValue (c :: cs)
        = publishSequence hysteresis (hysteresisPublish hysteresis oldValue c) cs := rfl
      _ = publishSequence hysteresis oldValue cs := by rw [hstep]
      _ = oldValue := ih (fun x hx => h x (List.mem_cons_of_mem c hx))

/-! ### Stepping loop lemmas -/

/-- The executed step size never exceeds the installed maximum step size
(the remaining budget). -/
lemma executedStepSize_le_max (minStepSize maxStepSize stableStep : ℚ) :
    executedStepSize minStepSize maxStepSize stableStep ≤ maxStepSize := by
  unfold executedStepSize
  by_cases h1 : stableStep < minStepSize
  · simp only [if_pos h1]
    split_ifs <;> linarith
  · simp only [if_neg h1]
    split_ifs <;> linarith

/-- The step sizes executed by the stepping loop sum to at most the
initial (nonnegative) budget. -/
lemma steppingLoop_sum_le (minStepSize : ℚ) (stableStep : SimState → ℚ)
    (update : ℚ → SimState → SimState) (contribs : List (SimState → SimState)) :
    ∀ (k : Nat) (r : ℚ) (s : SimState), 0 ≤ r →
      (steppingLoop minStepSize stableStep update contribs k r s).1.sum ≤ r := by
  intro k
  induction k with
  | zero => intro r s hr; simpa [steppingLoop] using hr
  | succ k ih =>
    intro r s hr
    by_cases h : stepEpsilon < r
    · have hdt : executedStepSize minStepSize r
          (stableStep (applyContributions contribs s)) ≤ r :=
        executedStepSize_le_max _ _ _
      have hrec := ih (r - executedStepSize minStepSize r
          (stableStep (applyContributions contribs s)))
        (update (executedStepSize minStepSize r (stableStep (applyContributions contribs s)))
          (applyContributions contribs s)) (by linarith)
      simp only [steppingLoop, if_pos h, List.sum_cons]
      linarith
    · simp only [steppingLoop, if_neg h, List.sum_nil]
      exact hr

/-- The stepping loop executes at most as many steps as it is allowed. -/
lemma steppingLoop_length_le (minStepSize : ℚ) (stableStep : SimState → ℚ)
    (update : ℚ → SimState → SimState) (contribs : List (SimState → SimState)) :
    ∀ (k : Nat) (r : ℚ) (s : SimState),
      (steppingLoop minStepSize stableStep update contribs k r s).1.length ≤ k := by
  intro k
  induction k with
  | zero => intro r s; simp [steppingLoop]
  | succ k ih =>
    intro r s
    by_cases h : stepEpsilon < r
    · simp only [steppingLoop, if_pos h, List.length_cons]
      exact Nat.succ_le_succ (ih _ _)
    · simp [steppingLoop, if_neg h]

/-! ### Trace lemmas -/

/-- `simulationStep` trace segments contain no `takeRequest` event. -/
lemma stepmap_count_takeRequest (dts : List ℚ) :
    (dts.map DisplayEvent.simulationStep).count DisplayEvent.takeRequest = 0 := by
  rw [List.count_eq_zero]
  intro hmem
  rcases List.mem_map.mp hmem with ⟨dt, _, heq⟩
  cases heq

/-- `simulationStep` trace segments contain no `callback` event. -/
lemma stepmap_count_callback (dts : List ℚ) :
    (dts.map DisplayEvent.simulationStep).count DisplayEvent.callback = 0 := by
  rw [List.count_eq_zero]
  intro hmem
  rcases List.mem_map.mp hmem with ⟨dt, _, heq⟩
  cases heq

/-- `simulationStep` trace segments contain no `readBathymetry` event. -/
lemma stepmap_count_readBathymetry (dts : List ℚ) :
    (dts.map DisplayEvent.simulationStep).count DisplayEvent.readBathymetry = 0 := by
  rw [List.count_eq_zero]
  intro hmem
  rcases List.mem_map.mp hmem with ⟨dt, _, heq⟩
  cases heq

/-- `simulationStep` trace segments contain no `readWaterLevel` event. -/
lemma stepmap_count_readWaterLevel (dts : List ℚ) :
    (dts.map DisplayEvent.simulationStep).count DisplayEvent.readWaterLevel = 0 := by
  rw [List.count_eq_zero]
  intro hmem
  rcases List.mem_map.mp hmem with ⟨dt, _, heq⟩
  cases heq

/-- `simulationStep` trace segments contain no `readSnowHeight` event. -/
lemma stepmap_count_readSnowHeight (dts : List ℚ) :
    (dts.map DisplayEvent.simulationStep).count DisplayEvent.readSnowHeight = 0 := by
  rw [List.count_eq_zero]
  intro hmem
  rcases List.mem_map.mp hmem with ⟨dt, _, heq⟩
  cases heq

/-- `callbackAfterAllSteps` ignores a prefix that contains no `callback`
event. -/
lemma callbackAfterAllSteps_append (xs ys : List DisplayEvent)
    (h : DisplayEvent.callback ∉ xs) :
    callbackAfterAllSteps (xs ++ ys) = callbackAfterAllSteps ys := by
  induction xs with
  | nil => rfl
  | cons x xs ih =>
    have hx : x ≠ DisplayEvent.callback := fun he => h (by simp [he])
    have hmem : DisplayEvent.callback ∉ xs := fun hm => h (List.mem_cons_of_mem _ hm)
    cases x <;> simp_all [callbackAfterAllSteps]

/-- `simulationStep` trace segments contain no `callback` event
(membership form). -/
lemma stepmap_not_mem_callback (dts : List ℚ) :
    DisplayEvent.callback ∉ dts.map DisplayEvent.simulationStep := by
  intro hmem
  rcases List.mem_map.mp hmem with ⟨dt, _, heq⟩
  cases heq

/-- Witness for C8: samples `50.05` and `49.96` around a published value
of `50` with hysteresis envelope width `0.1` leave the output at `50`. -/
theorem publishSequence_stable_witness :
    (∀ c ∈ [(5005 : ℚ)/100, 4996/100], |c - 50| ≤ (1/10) / 2)
    ∧ publishSequence (1/10) 50 [(5005 : ℚ)/100, 4996/100] = 50 := by
  have hb : ∀ c ∈ [(5005 : ℚ)/100, 4996/100], |c - 50| ≤ (1/10) / 2 := by
    intro c hc
    simp only [List.mem_cons, List.not_mem_nil, or_false] at hc
    rcases hc with h | h
    · rw [h]; rw [abs_le]; constructor <;> norm_num
    · rw [h]; rw [abs_le]; constructor <;> norm_num
  exact ⟨hb, publishSequence_stable (1/10) 50 [(5005 : ℚ)/100, 4996/100] hb⟩

/-- **C2.** For every display cycle (with nonnegative elapsed display time
and speed multiplier), the per-cycle time budget is the elapsed display
time times the speed multiplier, the sum of the step sizes executed by the
stepping loop is at most that budget, and the loop terminates within the
configured maximum number of steps. -/
theorem display_budget_conservation (frameTime waterSpeed minStepSize : ℚ)
    (stableStep : SimState → ℚ) (update : ℚ → SimState → SimState)
    (contribs : List (SimState → SimState)) (waterMaxSteps : Nat) (s : SimState)
    (hft : 0 ≤ frameTime) (hws : 0 ≤ waterSpeed) :
    cycleTimeBudget frameTime waterSpeed = frameTime * waterSpeed
    ∧ (steppingLoop minStepSize stableStep update contribs waterMaxSteps
        (cycleTimeBudget frameTime waterSpeed) s).1.sum
          ≤ cycleTimeBudget frameTime waterSpeed
    ∧ (steppingLoop minStepSize stableStep update contribs waterMaxSteps
        (cycleTimeBudget frameTime waterSpeed) s).1.length ≤ waterMaxSteps := by
  refine ⟨rfl, ?_, steppingLoop_length_le _ _ _ _ _ _ _⟩
  exact steppingLoop_sum_le _ _ _ _ _ _ _ (mul_nonneg hft hws)

/-- Witness for C2 at frame time 1, speed 1, 5 allowed steps. -/
theorem display_budget_conservation_witness :
    ((0 : ℚ) ≤ 1 ∧ (0 : ℚ) ≤ 1)
    ∧ (cycleTimeBudget 1 1 = 1 * 1
      ∧ (steppingLoop 0 (fun _ => 1) (fun _ s => s) [] 5 (cycleTimeBudget 1 1)
          ⟨[], [], []⟩).1.sum ≤ cycleTimeBudget 1 1
      ∧ (steppingLoop 0 (fun _ => 1) (fun _ s => s) [] 5 (cycleTimeBudget 1 1)
          ⟨[], [], []⟩).1.length ≤ 5) :=
  ⟨⟨by norm_num, by norm_num⟩,
   display_budget_conservation 1 1 0 (fun _ => 1) (fun _ s => s) [] 5 ⟨[], [], []⟩
     (by norm_num) (by norm_num)⟩

/-- **C4.** If the requested per-cycle time budget is already at or below
the `1.0e-8` threshold (for instance because the speed multiplier or the
elapsed display time is zero), the stepping loop executes zero steps,
applies no registered Contribution, and leaves the grid state
unchanged. -/
theorem zero_budget_cycle_noop (frameTime waterSpeed minStepSize : ℚ)
    (stableStep : SimState → ℚ) (update : ℚ → SimState → SimState)
    (contribs : List (SimState → SimState)) (waterMaxSteps : Nat) (s : SimState)
    (h : cycleTimeBudget frameTime waterSpeed ≤ stepEpsilon) :
    steppingLoop minStepSize stableStep update contribs waterMaxSteps
      (cycleTimeBudget frameTime waterSpeed) s = ([], 0, s) := by
  cases waterMaxSteps with
  | zero => rfl
  | succ k => simp [steppingLoop, not_lt.mpr h]

/-- Witness for C4 with speed multiplier zero. -/
theorem zero_budget_cycle_noop_witness :
    cycleTimeBudget 1 0 ≤ stepEpsilon
    ∧ steppingLoop 0 (fun _ => 1) (fun _ s => s) [] 5 (cycleTimeBudget 1 0)
        ⟨[5], [], []⟩ = ([], 0, ⟨[5], [], []⟩) :=
  ⟨by norm_num [cycleTimeBudget, stepEpsilon],
   zero_budget_cycle_noop 1 0 0 (fun _ => 1) (fun _ s => s) [] 5 ⟨[5], [], []⟩
     (by norm_num [cycleTimeBudget, stepEpsilon])⟩

/-- **C9.** The water simulation state is advanced at most once per
application frame: after one `display` invocation, any further invocation
with the same application time (e.g. for another render window of the same
OpenGL context) leaves the data item, the request slot and the grids
untouched and performs no simulation work. -/
theorem display_once_per_frame (inp : DisplayInputs) (d : DataItem) (g : GridRequestState)
    (s : SimState) :
    display inp (display inp d g s).dataItem (display inp d g s).gridReq
        (display inp d g s).sim
      = ⟨(display inp d g s).dataItem, (display inp d g s).gridReq,
         (display inp d g s).sim, [], 0⟩ := by
  by_cases hcond : inp.waterTablePresent = true ∧ d.waterTableTime ≠ inp.appTime
  · have h1 : (display inp d g s).dataItem = ⟨inp.appTime⟩ := by
      simp [display, hcond]
    rw [display, if_neg]
    rw [h1]
    simp
  · have h0 : display inp d g s = ⟨d, g, s, [], 0⟩ := by
      simp [display, hcond]
    rw [h0]
    simp [display, hcond]

/-- **C1, counterexample.** The protocol claimed — that the Engine takes
the pending snapshot request only *after* its update loop completes — is
false of `Sandbox::display`: on a concrete cycle with one pending request
and one executed step, the trace takes the request before the stepping
loop, so the claimed trace property fails. -/
theorem display_claimC1_counterexample :
    claimC1Trace (display cexDisplayInputs ⟨0⟩ cexGridRequest ⟨[], [], []⟩).trace = false := by
  have htr : (display cexDisplayInputs ⟨0⟩ cexGridRequest ⟨[], [], []⟩).trace
      = [DisplayEvent.takeRequest, DisplayEvent.updateBathymetry, DisplayEvent.readBathymetry,
         DisplayEvent.updatePropertyGrid, DisplayEvent.simulationStep 1,
         DisplayEvent.readWaterLevel, DisplayEvent.readSnowHeight, DisplayEvent.callback] := by
    norm_num [display, cexDisplayInputs, cexGridRequest, getRequest, Request.isActive,
      cycleTimeBudget, steppingLoop, stepEpsilon, executedStepSize, applyContributions]
  rw [htr]
  decide

/-- **C1, amended.** For every display cycle in which the water simulation
is updated, the Engine takes the pending snapshot request exactly once —
but *before* its update loop (as the cycle's first action), not after the
loop completes — and if a request was present it fills each caller-provided
buffer that the request asked for exactly once and invokes the completion
callback exactly once, synchronously, before the cycle continues. -/
theorem display_snapshot_service (inp : DisplayInputs) (d : DataItem)
    (g : GridRequestState) (s : SimState)
    (hwt : inp.waterTablePresent = true) (ht : d.waterTableTime ≠ inp.appTime)
    (hreq : g.currentRequest.isActive = true) :
    (display inp d g s).trace.head? = some DisplayEvent.takeRequest
    ∧ (display inp d g s).trace.count DisplayEvent.takeRequest = 1
    ∧ (g.currentRequest.bathymetryBuffer.isSome = true →
        (display inp d g s).trace.count DisplayEvent.readBathymetry = 1)
    ∧ (g.currentRequest.waterLevelBuffer.isSome = true →
        (display inp d g s).trace.count DisplayEvent.readWaterLevel = 1)
    ∧ (g.currentRequest.snowHeightBuffer.isSome = true →
        (display inp d g s).trace.count DisplayEvent.readSnowHeight = 1)
    ∧ (display inp d g s).trace.count DisplayEvent.callback = 1
    ∧ callbackAfterAllSteps (display inp d g s).trace = true := by
  have hcond : inp.waterTablePresent = true ∧ d.waterTableTime ≠ inp.appTime := ⟨hwt, ht⟩
  simp only [display, if_pos hcond, getRequest]
  by_cases hB : g.currentRequest.bathymetryBuffer.isSome = true <;>
    by_cases hW : g.currentRequest.waterLevelBuffer.isSome = true <;>
      by_cases hS : g.currentRequest.snowHeightBuffer.isSome = true <;>
        simp [hreq, hB, hW, hS, List.count_append, List.count_cons,
          stepmap_count_takeRequest, stepmap_count_callback,
          stepmap_count_readBathymetry, stepmap_count_readWaterLevel,
          stepmap_count_readSnowHeight,
          callbackAfterAllSteps, callbackAfterAllSteps_append _ _ (stepmap_not_mem_callback _)]

/-- Witness for the amended C1 at the concrete cycle inputs. -/
theorem display_snapshot_service_witness :
    (cexDisplayInputs.waterTablePresent = true
      ∧ (DataItem.mk 0).waterTableTime ≠ cexDisplayInputs.appTime
      ∧ cexGridRequest.currentRequest.isActive = true)
    ∧ ((display cexDisplayInputs ⟨0⟩ cexGridRequest ⟨[], [], []⟩).trace.head?
          = some DisplayEvent.takeRequest
      ∧ (display cexDisplayInputs ⟨0⟩ cexGridRequest ⟨[], [], []⟩).trace.count
          DisplayEvent.takeRequest = 1
      ∧ (cexGridRequest.currentRequest.bathymetryBuffer.isSome = true →
          (display cexDisplayInputs ⟨0⟩ cexGridRequest ⟨[], [], []⟩).trace.count
            DisplayEvent.readBathymetry = 1)
      ∧ (cexGridRequest.currentRequest.waterLevelBuffer.isSome = true →
          (display cexDisplayInputs ⟨0⟩ cexGridRequest ⟨[], [], []⟩).trace.count
            DisplayEvent.readWaterLevel = 1)
      ∧ (cexGridRequest.currentRequest.snowHeightBuffer.isSome = true →
          (display cexDisplayInputs ⟨0⟩ cexGridRequest ⟨[], [], []⟩).trace.count
            DisplayEvent.readSnowHeight = 1)
      ∧ (display cexDisplayInputs ⟨0⟩ cexGridRequest ⟨[], [], []⟩).trace.count
          DisplayEvent.callback = 1
      ∧ callbackAfterAllSteps
          (display cexDisplayInputs ⟨0⟩ cexGridRequest ⟨[], [], []⟩).trace = true) :=
  ⟨⟨by decide, by decide, by decide⟩,
   display_snapshot_service cexDisplayInputs ⟨0⟩ cexGridRequest ⟨[], [], []⟩
     (by decide) (by decide) (by decide)⟩

/-! ### Control pipe lemmas -/

/-- Skipping whitespace never lengthens the buffer. -/
lemma skipSpacesNotNL_length_le (l : List Char) :
    (skipSpacesNotNL l).length ≤ l.length := by
  induction l with
  | nil => simp [skipSpacesNotNL]
  | cons c rest ih =>
    by_cases h : (isSpaceChar c && c != '\n') = true
    · simp only [skipSpacesNotNL, if_pos h]
      exact le_trans ih (Nat.le_succ _)
    · simp [skipSpacesNotNL, h]

/-- The token scan never lengthens the buffer. -/
lemma takeTokenAux_rest_length_le (l : List Char) :
    (takeTokenAux l).2.length ≤ l.length := by
  induction l with
  | nil => simp [takeTokenAux]
  | cons c rest ih =>
    by_cases h : (!isSpaceChar c) = true
    · simp only [takeTokenAux, if_pos h]
      exact le_trans ih (Nat.le_succ _)
    · simp [takeTokenAux, h]

/-- After skipping whitespace, the head of the buffer is not whitespace
other than a newline. -/
lemma skipSpacesNotNL_head (l : List Char) :
    ∀ d ds, skipSpacesNotNL l = d :: ds → isSpaceChar d = false ∨ d = '\n' := by
  induction l with
  | nil => intro d ds h; simp [skipSpacesNotNL] at h
  | cons c rest ih =>
    intro d ds h
    by_cases hc : (isSpaceChar c && c != '\n') = true
    · exact ih d ds (by simpa [skipSpacesNotNL, hc] using h)
    · simp only [skipSpacesNotNL, if_neg hc] at h
      injection h with h1 h2
      rw [← h1]
      simp only [Bool.and_eq_true, bne_iff_ne, ne_eq, not_and, not_not] at hc
      by_cases hs : isSpaceChar c = true
      · exact Or.inr (hc hs)
      · exact Or.inl (by simpa using hs)

/-- The token loop never lengthens the buffer. -/
lemma tokenizeRestFuel_rest_le :
    ∀ (f : Nat) (l : List Char), (tokenizeRestFuel f l).2.length ≤ l.length := by
  intro f
  induction f with
  | zero => intro l; simp [tokenizeRestFuel]
  | succ f ih =>
    intro l
    match l with
    | [] => simp [tokenizeRestFuel]
    | c :: rest =>
      by_cases h : c = '\n'
      · simp only [tokenizeRestFuel, if_pos h, List.length_cons]
        omega
      · simp only [tokenizeRestFuel, if_neg h]
        calc (tokenizeRestFuel f (skipSpacesNotNL (takeTokenAux (c :: rest)).2)).2.length
            ≤ (skipSpacesNotNL (takeTokenAux (c :: rest)).2).length := ih _
          _ ≤ (takeTokenAux (c :: rest)).2.length := skipSpacesNotNL_length_le _
          _ ≤ (c :: rest).length := takeTokenAux_rest_length_le _

/-- Extracting one line from a nonempty buffer strictly shrinks it. -/
lemma tokenizeLine_rest_lt (buf : List Char) (h : buf ≠ []) :
    (tokenizeLine buf).2.length < buf.length := by
  have hskip := skipSpacesNotNL_length_le buf
  show (tokenizeRestFuel (skipSpacesNotNL buf).length (skipSpacesNotNL buf)).2.length
      < buf.length
  cases hl : skipSpacesNotNL buf with
  | nil =>
    simp only [List.length_nil, tokenizeRestFuel]
    exact List.length_pos.mpr h
  | cons d ds =>
    have hd := skipSpacesNotNL_head buf d ds hl
    have hlen : ds.length + 1 ≤ buf.length := by
      rw [hl] at hskip; simpa using hskip
    by_cases hnl : d = '\n'
    · simp only [List.length_cons, tokenizeRestFuel, if_pos hnl]
      omega
    · have hspace : isSpaceChar d = false := by
        rcases hd with h1 | h1
        · exact h1
        · exact absurd h1 hnl
      simp only [List.length_cons, tokenizeRestFuel, if_neg hnl]
      have ht : (takeTokenAux (d :: ds)).2.length ≤ ds.length := by
        simp only [takeTokenAux, hspace, Bool.not_false, if_pos]
        exact takeTokenAux_rest_length_le ds
      calc (tokenizeRestFuel ds.length
              (skipSpacesNotNL (takeTokenAux (d :: ds)).2)).2.length
          ≤ (skipSpacesNotNL (takeTokenAux (d :: ds)).2).length :=
            tokenizeRestFuel_rest_le _ _
        _ ≤ (takeTokenAux (d :: ds)).2.length := skipSpacesNotNL_length_le _
        _ ≤ ds.length := ht
        _ < buf.length := by omega

/-- The buffer-processing loop is insensitive to the exact fuel value as
long as it covers the buffer length. -/
lemma processBufferFuel_congr (cfg : PipeConfig) :
    ∀ (n f g : Nat) (buf : List Char) (p : SimParams),
      buf.length ≤ n → buf.length ≤ f → buf.length ≤ g →
      processBufferFuel cfg f buf p = processBufferFuel cfg g buf p := by
  intro n
  induction n with
  | zero =>
    intro f g buf p hn hf hg
    have hb : buf = [] := List.length_eq_zero.mp (Nat.le_zero.mp hn)
    subst hb
    cases f <;> cases g <;> simp [processBufferFuel]
  | succ n ih =>
    intro f g buf p hn hf hg
    match buf with
    | [] => cases f <;> cases g <;> simp [processBufferFuel]
    | c :: bs =>
      obtain ⟨f', rfl⟩ : ∃ k, f = k + 1 := ⟨f - 1, by simp at hf; omega⟩
      obtain ⟨g', rfl⟩ : ∃ k, g = k + 1 := ⟨g - 1, by simp at hg; omega⟩
      simp only [processBufferFuel]
      have hrest : (tokenizeLine (c :: bs)).2.length < (c :: bs).length :=
        tokenizeLine_rest_lt _ (by simp)
      simp only [List.length_cons] at hn hf hg hrest
      rw [ih f' g' (tokenizeLine (c :: bs)).2 _ (by omega) (by omega) (by omega)]

/-- A tokenized line that `lineError` flags makes the dispatch chain print
one error message and leave the simulation parameters unchanged. -/
lemma dispatch_lineError (cfg : PipeConfig) (tokens : List String) (p : SimParams)
    (h : lineError tokens = true) : dispatchCommand cfg tokens p = (p, 1) := by
  match tokens with
  | [] => simp [lineError] at h
  | cmd :: args =>
    simp only [lineError] at h
    simp only [dispatchCommand]
    cases hf : commandTable.find? (fun cs => isToken cmd cs.name) with
    | none => rfl
    | some cs =>
      simp only [hf, Bool.not_eq_true'] at h
      simp only [hf, h, Bool.false_eq_true, if_false]

/-- `clampQ` lands in the range when the range is nonempty. -/
lemma clampQ_mem (lo hi x : ℚ) (h : lo ≤ hi) :
    lo ≤ clampQ lo hi x ∧ clampQ lo hi x ≤ hi := by
  unfold clampQ
  split_ifs <;> constructor <;> linarith

/-- **C6.** A control-pipe line with a malformed argument count or an
unrecognized command name is reported (one error message) and skipped:
the simulation parameters after processing the whole buffer are exactly
those obtained by processing the remaining lines alone, and processing
continues with those lines.  (Processing is a total function: no
control-pipe input is fatal.) -/
theorem controlPipe_error_containment (cfg : PipeConfig) (buf : List Char) (p : SimParams)
    (hne : buf ≠ []) (hbad : lineError (tokenizeLine buf).1 = true) :
    (processBuffer cfg buf p).1 = (processBuffer cfg (tokenizeLine buf).2 p).1
    ∧ (processBuffer cfg buf p).2 = 1 + (processBuffer cfg (tokenizeLine buf).2 p).2 := by
  obtain ⟨c, bs, rfl⟩ := List.exists_cons_of_ne_nil hne
  have hlt : (tokenizeLine (c :: bs)).2.length < bs.length + 1 := by
    have := tokenizeLine_rest_lt (c :: bs) hne
    simpa using this
  have htok_ne : (tokenizeLine (c :: bs)).1 ≠ [] := by
    intro h0
    rw [h0] at hbad
    simp [lineError] at hbad
  have hE : (tokenizeLine (c :: bs)).1.isEmpty = false := by
    rw [Bool.eq_false_iff]
    intro hT
    exact htok_ne (List.isEmpty_iff.mp hT)
  have hdisp := dispatch_lineError cfg (tokenizeLine (c :: bs)).1 p hbad
  have hstep : processBuffer cfg (c :: bs) p
      = ((processBufferFuel cfg bs.length (tokenizeLine (c :: bs)).2 p).1,
         1 + (processBufferFuel cfg bs.length (tokenizeLine (c :: bs)).2 p).2) := by
    show processBufferFuel cfg (c :: bs).length (c :: bs) p = _
    simp only [List.length_cons, processBufferFuel, hE, Bool.false_eq_true, if_false, hdisp]
  have hfuel : processBufferFuel cfg bs.length (tokenizeLine (c :: bs)).2 p
      = processBuffer cfg (tokenizeLine (c :: bs)).2 p := by
    show _ = processBufferFuel cfg (tokenizeLine (c :: bs)).2.length _ _
    exact processBufferFuel_congr cfg bs.length _ _ _ _ (by omega) (by omega) le_rfl
  rw [hstep, hfuel]
  exact ⟨rfl, rfl⟩

/-- Witness for C6 on the concrete buffer `"bogus 1\nsnowLine 5\n"`. -/
theorem controlPipe_error_containment_witness :
    (("bogus 1\nsnowLine 5\n".data ≠ [])
      ∧ lineError (tokenizeLine "bogus 1\nsnowLine 5\n".data).1 = true)
    ∧ ((processBuffer cexPipeConfig "bogus 1\nsnowLine 5\n".data cexSimParams).1
        = (processBuffer cexPipeConfig
            (tokenizeLine "bogus 1\nsnowLine 5\n".data).2 cexSimParams).1
      ∧ (processBuffer cexPipeConfig "bogus 1\nsnowLine 5\n".data cexSimParams).2
        = 1 + (processBuffer cexPipeConfig
            (tokenizeLine "bogus 1\nsnowLine 5\n".data).2 cexSimParams).2) :=
  ⟨⟨by decide, by decide⟩,
   controlPipe_error_containment cexPipeConfig "bogus 1\nsnowLine 5\n".data cexSimParams
     (by decide) (by decide)⟩

/-- **C5, counterexample.** The control-pipe command `waterSpeed 100`
stores the speed multiplier 100, outside the waterSpeed slider's valid
range [0.001, 10]: the receiving code stores the parsed argument without
clamping it, so the stored parameter does not always lie within its valid
range. -/
theorem waterSpeed_not_clamped_counterexample :
    ¬ (waterSpeedRange.1 ≤ (dispatchCommand cexPipeConfig
          ["waterSpeed", "100"] cexSimParams).1.waterSpeed
      ∧ (dispatchCommand cexPipeConfig
          ["waterSpeed", "100"] cexSimParams).1.waterSpeed ≤ waterSpeedRange.2) := by
  have h1 : isToken "waterSpeed" "snowLine" = false := by decide
  have h2 : isToken "waterSpeed" "snowMelt" = false := by decide
  have h3 : isToken "waterSpeed" "waterSpeed" = true := by decide
  have hws : (dispatchCommand cexPipeConfig ["waterSpeed", "100"] cexSimParams).1.waterSpeed
      = atof "100" := by
    simp [dispatchCommand, commandTable, List.find?, h1, h2, h3]
  have hp : atofParts "100" = (false, 100, 0, 0) := by decide
  have hv : atof "100" = 100 := by
    unfold atof
    rw [hp]
    norm_num
  rw [hws, hv]
  rintro ⟨-, hb⟩
  norm_num [waterSpeedRange] at hb

/-- **C5, amended.** Of the numeric control-pipe commands, `snowLine` and
`snowMelt` pass the parsed argument through the GUI slider, which clamps
it into the slider's valid range before it is applied, so the applied
value always lies within that range; but `waterSpeed`, `waterMaxSteps`,
`waterAttenuation`, `rainStrength`, `evaporationRate`, `waterRoughness`
and `waterAbsorption` store the parsed decimal argument unclamped (for
`waterAttenuation` as one minus the unclamped argument, for
`waterMaxSteps` as the C int-to-unsigned conversion of the unclamped
argument). -/
theorem controlPipe_clamping (cfg : PipeConfig) (p : SimParams) (a : String)
    (hs : cfg.slidersPresent = true) (hw : cfg.waterTablePresent = true)
    (hg : cfg.propertyGridPresent = true)
    (hr : cfg.snowLineMin ≤ cfg.snowLineMax) (hm : 0 ≤ cfg.snowMeltMax) :
    (cfg.snowLineMin ≤ (dispatchCommand cfg ["snowLine", a] p).1.snowLine
      ∧ (dispatchCommand cfg ["snowLine", a] p).1.snowLine ≤ cfg.snowLineMax)
    ∧ (0 ≤ (dispatchCommand cfg ["snowMelt", a] p).1.snowMelt
      ∧ (dispatchCommand cfg ["snowMelt", a] p).1.snowMelt ≤ cfg.snowMeltMax)
    ∧ (dispatchCommand cfg ["waterSpeed", a] p).1.waterSpeed = atof a
    ∧ (dispatchCommand cfg ["waterMaxSteps", a] p).1.waterMaxSteps = uintOfInt (atoi a)
    ∧ (dispatchCommand cfg ["waterAttenuation", a] p).1.attenuation = 1 - atof a
    ∧ (dispatchCommand cfg ["rainStrength", a] p).1.rainStrength = atof a
    ∧ (dispatchCommand cfg ["evaporationRate", a] p).1.waterDeposit = atof a
    ∧ (dispatchCommand cfg ["waterRoughness", a] p).1.roughness = atof a
    ∧ (dispatchCommand cfg ["waterAbsorption", a] p).1.absorption = atof a := by
  have n1 : isToken "snowLine" "snowLine" = true := by decide
  have n2a : isToken "snowMelt" "snowLine" = false := by decide
  have n2 : isToken "snowMelt" "snowMelt" = true := by decide
  have n3a : isToken "waterSpeed" "snowLine" = false := by decide
  have n3b : isToken "waterSpeed" "snowMelt" = false := by decide
  have n3 : isToken "waterSpeed" "waterSpeed" = true := by decide
  have n4a : isToken "waterMaxSteps" "snowLine" = false := by decide
  have n4b : isToken "waterMaxSteps" "snowMelt" = false := by decide
  have n4c : isToken "waterMaxSteps" "waterSpeed" = false := by decide
  have n4 : isToken "waterMaxSteps" "waterMaxSteps" = true := by decide
  have n6a : isToken "waterAttenuation" "snowLine" = false := by decide
  have n6b : isToken "waterAttenuation" "snowMelt" = false := by decide
  have n6c : isToken "waterAttenuation" "waterSpeed" = false := by decide
  have n6d : isToken "waterAttenuation" "waterMaxSteps" = false := by decide
  have n6e : isToken "waterAttenuation" "waterMode" = false := by decide
  have n6 : isToken "waterAttenuation" "waterAttenuation" = true := by decide
  have n7a : isToken "waterRoughness" "snowLine" = false := by decide
  have n7b : isToken "waterRoughness" "snowMelt" = false := by decide
  have n7c : isToken "waterRoughness" "waterSpeed" = false := by decide
  have n7d : isToken "waterRoughness" "waterMaxSteps" = false := by decide
  have n7e : isToken "waterRoughness" "waterMode" = false := by decide
  have n7f : isToken "waterRoughness" "waterAttenuation" = false := by decide
  have n7 : isToken "waterRoughness" "waterRoughness" = true := by decide
  have n8a : isToken "rainStrength" "snowLine" = false := by decide
  have n8b : isToken "rainStrength" "snowMelt" = false := by decide
  have n8c : isToken "rainStrength" "waterSpeed" = false := by decide
  have n8d : isToken "rainStrength" "waterMaxSteps" = false := by decide
  have n8e : isToken "rainStrength" "waterMode" = false := by decide
  have n8f : isToken "rainStrength" "waterAttenuation" = false := by decide
  have n8g : isToken "rainStrength" "waterRoughness" = false := by decide
  have n8 : isToken "rainStrength" "rainStrength" = true := by decide
  have n9a : isToken "waterAbsorption" "snowLine" = false := by decide
  have n9b : isToken "waterAbsorption" "snowMelt" = false := by decide
  have n9c : isToken "waterAbsorption" "waterSpeed" = false := by decide
  have n9d : isToken "waterAbsorption" "waterMaxSteps" = false := by decide
  have n9e : isToken "waterAbsorption" "waterMode" = false := by decide
  have n9f : isToken "waterAbsorption" "waterAttenuation" = false := by decide
  have n9g : isToken "waterAbsorption" "waterRoughness" = false := by decide
  have n9h : isToken "waterAbsorption" "rainStrength" = false := by decide
  have n9 : isToken "waterAbsorption" "waterAbsorption" = true := by decide
  have n10a : isToken "evaporationRate" "snowLine" = false := by decide
  have n10b : isToken "evaporationRate" "snowMelt" = false := by decide
  have n10c : isToken "evaporationRate" "waterSpeed" = false := by decide
  have n10d : isToken "evaporationRate" "waterMaxSteps" = false := by decide
  have n10e : isToken "evaporationRate" "waterMode" = false := by decide
  have n10f : isToken "evaporationRate" "waterAttenuation" = false := by decide
  have n10g : isToken "evaporationRate" "waterRoughness" = false := by decide
  have n10h : isToken "evaporationRate" "rainStrength" = false := by decide
  have n10i : isToken "evaporationRate" "waterAbsorption" = false := by decide
  have n10 : isToken "evaporationRate" "evaporationRate" = true := by decide
  have hsnow : (dispatchCommand cfg ["snowLine", a] p).1.snowLine
      = clampQ cfg.snowLineMin cfg.snowLineMax (atof a) := by
    simp [dispatchCommand, commandTable, List.find?, n1, hs, hw]
  have hmelt : (dispatchCommand cfg ["snowMelt", a] p).1.snowMelt
      = clampQ 0 cfg.snowMeltMax (atof a) := by
    simp [dispatchCommand, commandTable, List.find?, n2a, n2, hs, hw]
  have hspeed : (dispatchCommand cfg ["waterSpeed", a] p).1.waterSpeed = atof a := by
    simp [dispatchCommand, commandTable, List.find?, n3a, n3b, n3]
  have hsteps : (dispatchCommand cfg ["waterMaxSteps", a] p).1.waterMaxSteps
      = uintOfInt (atoi a) := by
    simp [dispatchCommand, commandTable, List.find?, n4a, n4b, n4c, n4]
  have hatt : (dispatchCommand cfg ["waterAttenuation", a] p).1.attenuation
      = 1 - atof a := by
    simp [dispatchCommand, commandTable, List.find?, n6a, n6b, n6c, n6d, n6e, n6, hw]
  have hrain : (dispatchCommand cfg ["rainStrength", a] p).1.rainStrength = atof a := by
    simp [dispatchCommand, commandTable, List.find?,
      n8a, n8b, n8c, n8d, n8e, n8f, n8g, n8]
  have hevap : (dispatchCommand cfg ["evaporationRate", a] p).1.waterDeposit = atof a := by
    simp [dispatchCommand, commandTable, List.find?,
      n10a, n10b, n10c, n10d, n10e, n10f, n10g, n10h, n10i, n10, hw]
  have hrough : (dispatchCommand cfg ["waterRoughness", a] p).1.roughness = atof a := by
    simp [dispatchCommand, commandTable, List.find?,
      n7a, n7b, n7c, n7d, n7e, n7f, n7, hg]
  have habs : (dispatchCommand cfg ["waterAbsorption", a] p).1.absorption = atof a := by
    simp [dispatchCommand, commandTable, List.find?,
      n9a, n9b, n9c, n9d, n9e, n9f, n9g, n9h, n9, hg]
  rw [hsnow, hmelt, hspeed, hsteps, hatt, hrain, hevap, hrough, habs]
  exact ⟨clampQ_mem _ _ _ hr, clampQ_mem _ _ _ hm, rfl, rfl, rfl, rfl, rfl, rfl, rfl⟩

/-- Witness for the amended C5 at the concrete configuration and the
argument `"500"` (outside the snow line range `[0, 100]` and the snow
melt range `[0, 1]`). -/
theorem controlPipe_clamping_witness :
    (cexPipeConfig.slidersPresent = true ∧ cexPipeConfig.waterTablePresent = true
      ∧ cexPipeConfig.propertyGridPresent = true
      ∧ cexPipeConfig.snowLineMin ≤ cexPipeConfig.snowLineMax
      ∧ (0 : ℚ) ≤ cexPipeConfig.snowMeltMax)
    ∧ ((cexPipeConfig.snowLineMin
          ≤ (dispatchCommand cexPipeConfig ["snowLine", "500"] cexSimParams).1.snowLine
        ∧ (dispatchCommand cexPipeConfig ["snowLine", "500"] cexSimParams).1.snowLine
          ≤ cexPipeConfig.snowLineMax)
      ∧ (0 ≤ (dispatchCommand cexPipeConfig ["snowMelt", "500"] cexSimParams).1.snowMelt
        ∧ (dispatchCommand cexPipeConfig ["snowMelt", "500"] cexSimParams).1.snowMelt
          ≤ cexPipeConfig.snowMeltMax)
      ∧ (dispatchCommand cexPipeConfig ["waterSpeed", "500"] cexSimParams).1.waterSpeed
          = atof "500"
      ∧ (dispatchCommand cexPipeConfig
            ["waterMaxSteps", "500"] cexSimParams).1.waterMaxSteps
          = uintOfInt (atoi "500")
      ∧ (dispatchCommand cexPipeConfig
            ["waterAttenuation", "500"] cexSimParams).1.attenuation = 1 - atof "500"
      ∧ (dispatchCommand cexPipeConfig
            ["rainStrength", "500"] cexSimParams).1.rainStrength = atof "500"
      ∧ (dispatchCommand cexPipeConfig
            ["evaporationRate", "500"] cexSimParams).1.waterDeposit = atof "500"
      ∧ (dispatchCommand cexPipeConfig
            ["waterRoughness", "500"] cexSimParams).1.roughness = atof "500"
      ∧ (dispatchCommand cexPipeConfig
            ["waterAbsorption", "500"] cexSimParams).1.absorption = atof "500") :=
  ⟨⟨rfl, rfl, rfl, by norm_num [cexPipeConfig], by norm_num [cexPipeConfig]⟩,
   controlPipe_clamping cexPipeConfig cexSimParams "500" rfl rfl rfl
     (by norm_num [cexPipeConfig]) (by norm_num [cexPipeConfig])⟩

/-- **C7.** A `waterAttenuation x` control-pipe command with one decimal
argument `x` in `[0, 1]` stores `1 - x` as the water table's
damping/attenuation factor. -/
theorem waterAttenuation_one_minus (cfg : PipeConfig) (p : SimParams) (a : String)
    (hw : cfg.waterTablePresent = true) (h0 : 0 ≤ atof a) (h1 : atof a ≤ 1) :
    (dispatchCommand cfg ["waterAttenuation", a] p).1.attenuation = 1 - atof a := by
  have e1 : isToken "waterAttenuation" "snowLine" = false := by decide
  have e2 : isToken "waterAttenuation" "snowMelt" = false := by decide
  have e3 : isToken "waterAttenuation" "waterSpeed" = false := by decide
  have e4 : isToken "waterAttenuation" "waterMaxSteps" = false := by decide
  have e5 : isToken "waterAttenuation" "waterMode" = false := by decide
  have e6 : isToken "waterAttenuation" "waterAttenuation" = true := by decide
  simp [dispatchCommand, commandTable, List.find?, e1, e2, e3, e4, e5, e6, hw]

/-- Witness for C7 at the argument `"0.25"`: the stored attenuation is
`1 - 0.25`. -/
theorem waterAttenuation_one_minus_witness :
    (cexPipeConfig.waterTablePresent = true ∧ 0 ≤ atof "0.25" ∧ atof "0.25" ≤ 1)
    ∧ (dispatchCommand cexPipeConfig ["waterAttenuation", "0.25"]
        cexSimParams).1.attenuation = 1 - atof "0.25" := by
  have hp : atofParts "0.25" = (false, 0, 25, 2) := by decide
  have hv : atof "0.25" = 1 / 4 := by
    unfold atof
    rw [hp]
    norm_num
  refine ⟨⟨rfl, ?_, ?_⟩, waterAttenuation_one_minus cexPipeConfig cexSimParams "0.25" rfl ?_ ?_⟩
    <;> rw [hv] <;> norm_num

end SARndbox
